import Mathlib

/-!
Verification of the audio scheduling core of the PulseCanvas AR beat-pad
application (file src/components/AudioEngine.ts).

The engine is shallowly embedded: the mutable fields of the AudioEngine
class together with the global Tone.js transport and the set of created
Tone.Part objects form an explicit state type, and every public method is a
state-passing function.  JavaScript number arithmetic performed by the
engine (remainder, Math.round, seconds arithmetic) is modelled over the
rationals with explicit truncating remainder, exactly as the source writes
it.  Methods that throw return an Except value together with the state that
is left behind, so an error carries the state as it was at the throw.
-/

namespace PulseCanvas

/-- Truncation of a rational toward zero, the behaviour of JavaScript when
a fractional quotient feeds a remainder operation. -/
def ratTrunc (q : ℚ) : ℤ :=
  if 0 ≤ q then ⌊q⌋ else ⌈q⌉

/-- JavaScript remainder on numbers: a - b * trunc (a / b).  The result
keeps the sign of the dividend.  Models the expression now % subdivision
of triggerPad. -/
def jsMod (a b : ℚ) : ℚ :=
  a - b * (ratTrunc (a / b) : ℚ)

/-- JavaScript remainder on integers (sign of the dividend), used to model
evt.tick % GRID_RESOLUTION and ... % GRID_RESOLUTION where the operand is
an integer. -/
def jsRemInt (a b : ℤ) : ℤ :=
  if 0 ≤ a then a % b else -((-a) % b)

/-- Math.round of JavaScript: floor (q + 1/2), rounding half toward
positive infinity. -/
def jsRound (q : ℚ) : ℤ :=
  ⌊q + 1 / 2⌋

/-- The six pad identifiers of the PadId union type. -/
inductive PadId where
  | kick
  | snare
  | hat
  | bass
  | lead
  | fx
deriving DecidableEq, Repr

/-- QuantizedTrigger record returned by triggerPad. -/
structure QuantizedTrigger where
  tick : ℤ
  scheduledAt : ℚ
deriving DecidableEq, Repr

/-- LoopEvent record: one hit of the 16 step grid.  The tick is an
arbitrary integer in the embedding because createClip defends against
out-of-range values. -/
structure LoopEvent where
  tick : ℤ
  padId : PadId
  velocity : ℚ
deriving DecidableEq, Repr

/-- LoopClip record as stored by the clip library. -/
structure LoopClip where
  id : String
  title : String
  author : String
  bpm : ℚ
  color : String
  createdAt : ℤ
  events : List LoopEvent
  likes : ℤ
  remixes : ℤ
deriving DecidableEq, Repr

/-- State of one Tone.js audio node owned by the engine (a synth or an
effect).  Tone node disposal is idempotent, so a node is modelled by its
disposed flag. -/
structure NodeState where
  disposed : Bool
deriving DecidableEq, Repr

/-- State of the Tone.Filter node, carrying the ramp target of its
frequency parameter. -/
structure FilterState where
  disposed : Bool
  freqTarget : ℚ
deriving DecidableEq, Repr

/-- State of the Tone.Reverb node, carrying the ramp target of its wet
parameter. -/
structure ReverbState where
  disposed : Bool
  wetTarget : ℚ
deriving DecidableEq, Repr

/-- One pending one-shot activation registered with
Tone.Transport.scheduleOnce by triggerPad. -/
structure PendingTrigger where
  padId : PadId
  time : ℚ
  velocity : ℚ
deriving DecidableEq, Repr

/-- State of one Tone.Part object created by createClip: its scheduled
(offset, event) pairs and its loop, humanize, started and disposed flags. -/
structure PartState where
  events : List (ℚ × LoopEvent)
  loop : Bool
  loopEnd : ℚ
  humanize : ℚ
  started : Bool
  disposed : Bool
deriving DecidableEq, Repr

/-- State of the global Tone.Transport: tempo, loop configuration, whether
it was started, and the list of pending one-shot activations. -/
structure TransportState where
  bpm : ℚ
  loop : Bool
  loopStart : ℚ
  started : Bool
  scheduled : List PendingTrigger
deriving DecidableEq, Repr

/-- The mutable fields of the AudioEngine class.  Every node field is
nullable in the source and stays an Option here; dispose never writes null
back, it only disposes the pointed-to node. -/
structure AudioEngine where
  initialized : Bool
  bpm : ℚ
  filter : Option FilterState
  reverb : Option ReverbState
  distortion : Option NodeState
  limiter : Option NodeState
  kick : Option NodeState
  snare : Option NodeState
  hat : Option NodeState
  bass : Option NodeState
  lead : Option NodeState
  fx : Option NodeState
deriving DecidableEq, Repr

/-- Whole-world state: the engine instance, the global transport, and the
Tone.Part objects created so far (a part handle is an index into this
list; parts are appended and never removed, matching Tone object
identity). -/
structure World where
  engine : AudioEngine
  transport : TransportState
  parts : List PartState
deriving DecidableEq, Repr

/-- ActiveClip: a LoopClip together with the part handle, built by
createClip as a field-wise copy of the source clip. -/
structure ActiveClip extends LoopClip where
  part : Option ℕ
deriving DecidableEq, Repr

/-- The single error the engine throws from ensureReady. -/
inductive EngineError where
  | engineNotReady
deriving DecidableEq, Repr

/-- GRID_RESOLUTION constant: sixteenth notes within a bar. -/
def GRID_RESOLUTION : ℤ := 16

/-- DEFAULT_BPM constant. -/
def DEFAULT_BPM : ℚ := 104

/-- Seconds of one sixteenth note at the given tempo, the value of
Tone.Time("16n").toSeconds(). -/
def sixteenthSeconds (bpm : ℚ) : ℚ :=
  60 / bpm / 4

/-- Seconds of one measure (four beats) at the given tempo, the value of
Tone.Time("1m").toSeconds(). -/
def measureSeconds (bpm : ℚ) : ℚ :=
  4 * (60 / bpm)

/-- A fresh, undisposed Tone node. -/
def freshNode : NodeState :=
  ⟨false⟩

/-- Disposal of a Tone node; idempotent at the Tone layer. -/
def disposeNode (n : NodeState) : NodeState :=
  { n with disposed := true }

/-- Disposal of the filter node. -/
def disposeFilter (n : FilterState) : FilterState :=
  { n with disposed := true }

/-- Disposal of the reverb node. -/
def disposeReverb (n : ReverbState) : ReverbState :=
  { n with disposed := true }

/-- Tone.Part.stop: the part stops producing callbacks. -/
def partStop (p : PartState) : PartState :=
  { p with started := false }

/-- Tone.Part.dispose: the part is stopped and its resources released;
idempotent at the Tone layer. -/
def partDispose (p : PartState) : PartState :=
  { p with started := false, disposed := true }

/-- Replacement of the element at one index of a list, leaving the list
unchanged when the index is out of range; models in-place mutation of one
Tone.Part among the created parts. -/
def updateAt : List PartState → ℕ → (PartState → PartState) → List PartState
  | [], _, _ => []
  | p :: ps, 0, f => f p :: ps
  | p :: ps, n + 1, f => p :: updateAt ps n f

namespace Engine

/-- Method init: if already initialized return; otherwise build the effect
chain and the six voices, configure the transport (tempo from the stored
bpm field, loop over one measure) and start it.  Await of Tone.start is
modelled as succeeding. -/
def init (w : World) : World :=
  if w.engine.initialized then w
  else
    { w with
      engine := { w.engine with
        filter := some { disposed := false, freqTarget := 18000 }
        reverb := some { disposed := false, wetTarget := 28 / 100 }
        distortion := some freshNode
        limiter := some freshNode
        kick := some freshNode
        snare := some freshNode
        hat := some freshNode
        bass := some freshNode
        lead := some freshNode
        fx := some freshNode
        initialized := true }
      transport := { w.transport with
        bpm := w.engine.bpm
        loop := true
        loopStart := 0
        started := true } }

/-- Method dispose: dispose each non-null node and clear the initialized
flag.  Nothing else is touched: the transport, its pending scheduled
one-shots, and every created Tone.Part are left as they are. -/
def dispose (w : World) : World :=
  { w with
    engine := { w.engine with
      kick := w.engine.kick.map disposeNode
      snare := w.engine.snare.map disposeNode
      hat := w.engine.hat.map disposeNode
      bass := w.engine.bass.map disposeNode
      lead := w.engine.lead.map disposeNode
      fx := w.engine.fx.map disposeNode
      filter := w.engine.filter.map disposeFilter
      reverb := w.engine.reverb.map disposeReverb
      distortion := w.engine.distortion.map disposeNode
      limiter := w.engine.limiter.map disposeNode
      initialized := false } }

/-- Method setBpm: ensureReady, then store the new bpm and ramp the
transport tempo to it. -/
def setBpm (nextBpm : ℚ) (w : World) : Except EngineError Unit × World :=
  if w.engine.initialized then
    (Except.ok (),
      { w with
        engine := { w.engine with bpm := nextBpm }
        transport := { w.transport with bpm := nextBpm } })
  else (Except.error EngineError.engineNotReady, w)

/-- Method setFilterFrequency: ensureReady, then ramp the filter frequency
target (optional chaining on the possibly-null filter node). -/
def setFilterFrequency (value : ℚ) (w : World) : Except EngineError Unit × World :=
  if w.engine.initialized then
    (Except.ok (),
      { w with
        engine := { w.engine with
          filter := w.engine.filter.map (fun f => { f with freqTarget := value }) } })
  else (Except.error EngineError.engineNotReady, w)

/-- Method setReverbWet: ensureReady, then ramp the reverb wet target when
the reverb node is present. -/
def setReverbWet (value : ℚ) (w : World) : Except EngineError Unit × World :=
  if w.engine.initialized then
    (Except.ok (),
      { w with
        engine := { w.engine with
          reverb := w.engine.reverb.map (fun r => { r with wetTarget := value }) } })
  else (Except.error EngineError.engineNotReady, w)

/-- Quantization arithmetic of triggerPad: the next tick time, as written
in the source, now % subdivision === 0 ? now : now + (subdivision - (now %
subdivision)). -/
def nextTickSeconds (now subdivision : ℚ) : ℚ :=
  if jsMod now subdivision = 0 then now
  else now + (subdivision - jsMod now subdivision)

/-- Quantization arithmetic of triggerPad: the grid step, Math.round
(nextTickSeconds / subdivision) % GRID_RESOLUTION. -/
def tickOf (now subdivision : ℚ) : ℤ :=
  jsRemInt (jsRound (nextTickSeconds now subdivision / subdivision)) GRID_RESOLUTION

/-- Method triggerPad: ensureReady, read the sixteenth-note duration and
the transport clock (the clock reading is the extra argument now), quantize
forward, register a one-shot activation with the transport, and return the
QuantizedTrigger.  The subdivision is taken from the transport tempo, as
Tone.Time does. -/
def triggerPad (padId : PadId) (velocity : ℚ) (now : ℚ) (w : World) :
    Except EngineError QuantizedTrigger × World :=
  if w.engine.initialized then
    let subdivision := sixteenthSeconds w.transport.bpm
    let nextTick := nextTickSeconds now subdivision
    let tick := tickOf now subdivision
    (Except.ok { tick := tick, scheduledAt := nextTick },
      { w with
        transport := { w.transport with
          scheduled := w.transport.scheduled ++
            [{ padId := padId, time := nextTick, velocity := velocity }] } })
  else (Except.error EngineError.engineNotReady, w)

/-- Offset within one measure computed by createClip for one event:
((evt.tick % GRID_RESOLUTION) / GRID_RESOLUTION) * measureSeconds. -/
def clipOffset (bpm : ℚ) (tick : ℤ) : ℚ :=
  ((jsRemInt tick GRID_RESOLUTION : ℚ) / (GRID_RESOLUTION : ℚ)) * measureSeconds bpm

/-- Tone.Part value built by createClip at the given transport tempo: one
(offset, event) pair per source event, looping over one measure with
humanize 0.01, started at 0. -/
def builtPart (bpm : ℚ) (source : LoopClip) : PartState :=
  { events := source.events.map (fun evt => (clipOffset bpm evt.tick, evt))
    loop := true
    loopEnd := measureSeconds bpm
    humanize := 1 / 100
    started := true
    disposed := false }

/-- Method createClip: ensureReady, map every event of the source clip to
an (offset, event) pair, build a looping Tone.Part over those pairs with
loopEnd one measure and humanize 0.01, start it at 0, and return the
field-wise copy of the source clip extended with the part handle. -/
def createClip (source : LoopClip) (w : World) : Except EngineError ActiveClip × World :=
  if w.engine.initialized then
    (Except.ok { toLoopClip := source, part := some w.parts.length },
      { w with parts := w.parts ++ [builtPart w.transport.bpm source] })
  else (Except.error EngineError.engineNotReady, w)

/-- Method stopClip: optional chaining on the part handle, then
Tone.Part.stop followed by Tone.Part.dispose.  No readiness check is
performed, so the method never throws. -/
def stopClip (activeClip : ActiveClip) (w : World) : World :=
  match activeClip.part with
  | none => w
  | some pid => { w with parts := updateAt w.parts pid (fun p => partDispose (partStop p)) }

end Engine

/-- A world before any initialization: no nodes, transport at the Tone.js
default tempo, not started, nothing scheduled, no parts. -/
def world0 : World :=
  { engine :=
      { initialized := false
        bpm := DEFAULT_BPM
        filter := none
        reverb := none
        distortion := none
        limiter := none
        kick := none
        snare := none
        hat := none
        bass := none
        lead := none
        fx := none }
    transport :=
      { bpm := 120
        loop := false
        loopStart := 0
        started := false
        scheduled := [] }
    parts := [] }

/-- The three-event demo pattern named in the specification: kick on step
0, snare on step 4, kick on step 8, at 104 bpm. -/
def demoClip : LoopClip :=
  { id := "demo"
    title := "Demo"
    author := "Spec"
    bpm := 104
    color := "#ff6ac1"
    createdAt := 0
    events :=
      [ { tick := 0, padId := PadId.kick, velocity := 1 }
      , { tick := 4, padId := PadId.snare, velocity := 9 / 10 }
      , { tick := 8, padId := PadId.kick, velocity := 1 } ]
    likes := 0
    remixes := 0 }

/-! ### Arithmetic lemmas about the quantizer -/

theorem ratTrunc_of_nonneg {q : ℚ} (h : 0 ≤ q) : ratTrunc q = ⌊q⌋ := by
  simp [ratTrunc, h]

theorem jsMod_eq_fract {a b : ℚ} (ha : 0 ≤ a) (hb : 0 < b) :
    jsMod a b = b * Int.fract (a / b) := by
  have hq : 0 ≤ a / b := div_nonneg ha hb.le
  rw [jsMod, ratTrunc_of_nonneg hq, Int.fract]
  have hb0 : b ≠ 0 := ne_of_gt hb
  field_simp

theorem jsMod_nonneg {a b : ℚ} (ha : 0 ≤ a) (hb : 0 < b) : 0 ≤ jsMod a b := by
  rw [jsMod_eq_fract ha hb]
  exact mul_nonneg hb.le (Int.fract_nonneg _)

theorem jsMod_lt {a b : ℚ} (ha : 0 ≤ a) (hb : 0 < b) : jsMod a b < b := by
  rw [jsMod_eq_fract ha hb]
  calc b * Int.fract (a / b) < b * 1 := by
        exact mul_lt_mul_of_pos_left (Int.fract_lt_one _) hb
    _ = b := mul_one b

theorem jsMod_eq_zero_iff {a b : ℚ} (ha : 0 ≤ a) (hb : 0 < b) :
    jsMod a b = 0 ↔ ∃ k : ℤ, a = (k : ℚ) * b := by
  have hb0 : b ≠ 0 := ne_of_gt hb
  rw [jsMod_eq_fract ha hb]
  constructor
  · intro h
    rcases mul_eq_zero.mp h with h' | h'
    · exact absurd h' hb0
    · have hfr : a / b - (⌊a / b⌋ : ℚ) = 0 := h'
      refine ⟨⌊a / b⌋, ?_⟩
      have hdiv : a / b = (⌊a / b⌋ : ℚ) := by linarith
      exact (div_eq_iff hb0).mp hdiv
  · rintro ⟨k, rfl⟩
    have : (k : ℚ) * b / b = (k : ℚ) := by field_simp
    rw [this, Int.fract_intCast, mul_zero]

theorem jsRound_intCast (k : ℤ) : jsRound (k : ℚ) = k := by
  rw [jsRound, Int.floor_int_add]
  norm_num

theorem jsRemInt_nonneg {a b : ℤ} (ha : 0 ≤ a) (hb : 0 < b) : 0 ≤ jsRemInt a b := by
  rw [jsRemInt, if_pos ha]
  exact Int.emod_nonneg a (ne_of_gt hb)

theorem jsRemInt_lt {a b : ℤ} (ha : 0 ≤ a) (hb : 0 < b) : jsRemInt a b < b := by
  rw [jsRemInt, if_pos ha]
  exact Int.emod_lt_of_pos a hb

/-- The next tick time is the subdivision multiplied by a non-negative
integer: floor (now / subdivision) on a boundary, one more otherwise. -/
theorem nextTickSeconds_eq_int_mul {now subdivision : ℚ}
    (h0 : 0 ≤ now) (hs : 0 < subdivision) :
    ∃ m : ℤ, 0 ≤ m ∧ Engine.nextTickSeconds now subdivision = subdivision * (m : ℚ) := by
  have hq : 0 ≤ now / subdivision := div_nonneg h0 hs.le
  have hfl : 0 ≤ ⌊now / subdivision⌋ := Int.floor_nonneg.mpr hq
  have hmod : jsMod now subdivision =
      now - subdivision * (⌊now / subdivision⌋ : ℚ) := by
    rw [jsMod, ratTrunc_of_nonneg hq]
  by_cases hz : jsMod now subdivision = 0
  · refine ⟨⌊now / subdivision⌋, hfl, ?_⟩
    rw [Engine.nextTickSeconds, if_pos hz]
    have := hmod
    rw [hz] at this
    linarith
  · refine ⟨⌊now / subdivision⌋ + 1, by omega, ?_⟩
    rw [Engine.nextTickSeconds, if_neg hz]
    push_cast
    linarith [hmod]

/-! ### Claim theorems -/

/-- C1: for every now >= 0 and every subdivisionSeconds > 0, the aligned
time computed by the quantization in triggerPad is at least now and less
than one subdivision ahead of now, and it equals now exactly when now falls
on a subdivision boundary (tie-break toward now, never a push to the next
boundary). -/
theorem quantize_aligned_time_forward (now subdivision : ℚ)
    (h0 : 0 ≤ now) (hs : 0 < subdivision) :
    now ≤ Engine.nextTickSeconds now subdivision ∧
    Engine.nextTickSeconds now subdivision - now < subdivision ∧
    (Engine.nextTickSeconds now subdivision = now ↔
      ∃ k : ℤ, now = (k : ℚ) * subdivision) := by
  have hmn := jsMod_nonneg h0 hs
  have hml := jsMod_lt h0 hs
  by_cases hz : jsMod now subdivision = 0
  · rw [Engine.nextTickSeconds, if_pos hz]
    refine ⟨le_refl _, by linarith, ?_⟩
    simp only [true_iff]
    exact (jsMod_eq_zero_iff h0 hs).mp hz
  · rw [Engine.nextTickSeconds, if_neg hz]
    have hpos : 0 < jsMod now subdivision := lt_of_le_of_ne hmn (Ne.symm hz)
    refine ⟨by linarith, by linarith, ?_⟩
    constructor
    · intro h
      exfalso
      have : subdivision - jsMod now subdivision = 0 := by linarith
      linarith
    · intro h
      exact absurd ((jsMod_eq_zero_iff h0 hs).mpr h) hz

/-- C1 witness: the quantization contract instantiated at now = 1/4 s and
the 104 bpm sixteenth-note subdivision 15/104 s. -/
theorem quantize_aligned_time_forward_witness :
    (0 : ℚ) ≤ 1 / 4 ∧ (0 : ℚ) < 15 / 104 ∧
    ((1 : ℚ) / 4 ≤ Engine.nextTickSeconds (1 / 4) (15 / 104) ∧
     Engine.nextTickSeconds (1 / 4) (15 / 104) - 1 / 4 < 15 / 104 ∧
     (Engine.nextTickSeconds (1 / 4) (15 / 104) = 1 / 4 ↔
       ∃ k : ℤ, (1 : ℚ) / 4 = (k : ℚ) * (15 / 104))) :=
  ⟨by norm_num, by norm_num,
    quantize_aligned_time_forward (1 / 4) (15 / 104) (by norm_num) (by norm_num)⟩

/-- C2: the step value computed by triggerPad is an integer in [0, 16) for
every non-negative now and positive subdivision; and on the fresh engine at
the default 104 bpm, triggerPad called at transport time exactly 0 returns
the quantized trigger with tick 0 scheduled at time 0. -/
theorem triggerPad_step_range_and_zero_scenario :
    (∀ now subdivision : ℚ, 0 ≤ now → 0 < subdivision →
      0 ≤ Engine.tickOf now subdivision ∧ Engine.tickOf now subdivision < 16) ∧
    (Engine.triggerPad PadId.kick 1 0 (Engine.init world0)).1 =
      Except.ok { tick := 0, scheduledAt := 0 } := by
  constructor
  · intro now subdivision h0 hs
    obtain ⟨m, hm0, hmeq⟩ := nextTickSeconds_eq_int_mul h0 hs
    have hsne : subdivision ≠ 0 := ne_of_gt hs
    have hdiv : Engine.nextTickSeconds now subdivision / subdivision = (m : ℚ) := by
      rw [hmeq, mul_div_cancel_left₀ _ hsne]
    rw [Engine.tickOf, hdiv, jsRound_intCast]
    exact ⟨jsRemInt_nonneg hm0 (by norm_num [GRID_RESOLUTION]),
      jsRemInt_lt hm0 (by norm_num [GRID_RESOLUTION])⟩
  · norm_num [Engine.triggerPad, Engine.init, world0, Engine.tickOf,
      Engine.nextTickSeconds, jsMod, ratTrunc, jsRound, jsRemInt,
      sixteenthSeconds, GRID_RESOLUTION, DEFAULT_BPM]

/-- C2 witness: the step range instantiated at now = 1/2 s and subdivision
15/104 s. -/
theorem triggerPad_step_range_witness :
    (0 : ℚ) ≤ 1 / 2 ∧ (0 : ℚ) < 15 / 104 ∧
    (0 ≤ Engine.tickOf (1 / 2) (15 / 104) ∧ Engine.tickOf (1 / 2) (15 / 104) < 16) :=
  ⟨by norm_num, by norm_num,
    triggerPad_step_range_and_zero_scenario.1 (1 / 2) (15 / 104) (by norm_num) (by norm_num)⟩

/-- C3: the fresh engine is not Ready, a disposed engine is not Ready, and
every scheduling or parameter-setting operation invoked on a non-Ready
engine fails with the EngineNotReady error. -/
theorem notReady_ops_fail :
    world0.engine.initialized = false ∧
    (∀ w : World, (Engine.dispose w).engine.initialized = false) ∧
    (∀ w : World, w.engine.initialized = false →
      ∀ (x vel now : ℚ) (p : PadId) (clip : LoopClip),
        (Engine.setBpm x w).1 = Except.error EngineError.engineNotReady ∧
        (Engine.setFilterFrequency x w).1 = Except.error EngineError.engineNotReady ∧
        (Engine.setReverbWet x w).1 = Except.error EngineError.engineNotReady ∧
        (Engine.triggerPad p vel now w).1 = Except.error EngineError.engineNotReady ∧
        (Engine.createClip clip w).1 = Except.error EngineError.engineNotReady) := by
  refine ⟨rfl, fun w => rfl, fun w h x vel now p clip => ?_⟩
  simp [Engine.setBpm, Engine.setFilterFrequency, Engine.setReverbWet,
    Engine.triggerPad, Engine.createClip, h]

/-- C3 witness: the operations all fail on the fresh, never-initialized
world. -/
theorem notReady_ops_fail_witness :
    world0.engine.initialized = false ∧
    (Engine.setBpm 120 world0).1 = Except.error EngineError.engineNotReady ∧
    (Engine.setFilterFrequency 8000 world0).1 = Except.error EngineError.engineNotReady ∧
    (Engine.setReverbWet (1 / 2) world0).1 = Except.error EngineError.engineNotReady ∧
    (Engine.triggerPad PadId.kick 1 0 world0).1 = Except.error EngineError.engineNotReady ∧
    (Engine.createClip demoClip world0).1 = Except.error EngineError.engineNotReady :=
  ⟨rfl, (notReady_ops_fail.2.2 world0 rfl 120 1 0 PadId.kick demoClip).1,
    (notReady_ops_fail.2.2 world0 rfl 8000 1 0 PadId.kick demoClip).2.1,
    (notReady_ops_fail.2.2 world0 rfl (1 / 2) 1 0 PadId.kick demoClip).2.2.1,
    (notReady_ops_fail.2.2 world0 rfl 120 1 0 PadId.kick demoClip).2.2.2.1,
    (notReady_ops_fail.2.2 world0 rfl 120 1 0 PadId.kick demoClip).2.2.2.2⟩

/-- C10: an operation that fails with EngineNotReady is atomic: it returns
the error together with the world exactly as it was, so no engine field, no
transport field and no pending schedule is changed by the failed call. -/
theorem notReady_ops_atomic (w : World) (h : w.engine.initialized = false)
    (x vel now : ℚ) (p : PadId) (clip : LoopClip) :
    Engine.setBpm x w = (Except.error EngineError.engineNotReady, w) ∧
    Engine.setFilterFrequency x w = (Except.error EngineError.engineNotReady, w) ∧
    Engine.setReverbWet x w = (Except.error EngineError.engineNotReady, w) ∧
    Engine.triggerPad p vel now w = (Except.error EngineError.engineNotReady, w) ∧
    Engine.createClip clip w = (Except.error EngineError.engineNotReady, w) := by
  simp [Engine.setBpm, Engine.setFilterFrequency, Engine.setReverbWet,
    Engine.triggerPad, Engine.createClip, h]

/-- C10 witness: atomicity of the failing calls on the fresh world. -/
theorem notReady_ops_atomic_witness :
    world0.engine.initialized = false ∧
    (Engine.setBpm 120 world0 = (Except.error EngineError.engineNotReady, world0) ∧
     Engine.setFilterFrequency 120 world0 = (Except.error EngineError.engineNotReady, world0) ∧
     Engine.setReverbWet 120 world0 = (Except.error EngineError.engineNotReady, world0) ∧
     Engine.triggerPad PadId.snare 1 (1 / 2) world0 =
       (Except.error EngineError.engineNotReady, world0) ∧
     Engine.createClip demoClip world0 = (Except.error EngineError.engineNotReady, world0)) :=
  ⟨rfl, notReady_ops_atomic world0 rfl 120 1 (1 / 2) PadId.snare demoClip⟩

/-- C4 counterexample: the dispose transition is not terminal in the code.
On the concrete trace init, dispose, init of a fresh engine instance, the
second init call returns the same instance to the Ready state, because
dispose merely clears the initialized flag and init rebuilds everything
when that flag is clear. -/
theorem dispose_then_init_reaches_ready_counterexample :
    (Engine.init (Engine.dispose (Engine.init world0))).engine.initialized = true := by
  rfl

/-- C4 amended: dispose moves any engine out of the Ready state by
clearing the initialized flag, but the transition is not terminal: a
subsequent init on the same instance returns it to Ready (no fresh
instance is required). -/
theorem dispose_not_terminal (w : World) :
    (Engine.dispose w).engine.initialized = false ∧
    (Engine.init (Engine.dispose w)).engine.initialized = true := by
  constructor
  · rfl
  · rw [Engine.init]
    simp [Engine.dispose]

/-- C4 amended witness: the dispose and re-init behaviour on the fresh
world. -/
theorem dispose_not_terminal_witness :
    (Engine.dispose world0).engine.initialized = false ∧
    (Engine.init (Engine.dispose world0)).engine.initialized = true :=
  dispose_not_terminal world0

/-- World reached by initializing a fresh engine, scheduling one quantized
one-shot kick at transport time 1/2 s, starting the demo clip, and then
disposing the engine. -/
def disposedBusyWorld : World :=
  Engine.dispose
    ((Engine.createClip demoClip
      ((Engine.triggerPad PadId.kick 1 (1 / 2) (Engine.init world0)).2)).2)

/-- C5 counterexample: dispose does not cancel pending scheduled work.  On
the concrete trace init, triggerPad, createClip, dispose, the pending
one-shot trigger is still registered with the transport, and the
Tone.Part is still started and not disposed, so its resources are not
released and its firings are not cancelled. -/
theorem dispose_leaves_schedules_counterexample :
    disposedBusyWorld.engine.initialized = false ∧
    disposedBusyWorld.transport.scheduled.length = 1 ∧
    disposedBusyWorld.parts.map PartState.started = [true] ∧
    disposedBusyWorld.parts.map PartState.disposed = [false] := by
  refine ⟨rfl, ?_, ?_, ?_⟩ <;>
    simp [disposedBusyWorld, Engine.dispose, Engine.createClip, Engine.builtPart,
      Engine.triggerPad, Engine.init, world0, demoClip]

/-- C5 amended: dispose disposes every non-null audio node owned by the
engine and clears the initialized flag, but it does not cancel pending
one-shot triggers registered with the transport and does not stop or
dispose the Tone.Part objects created by createClip: both survive dispose
unchanged. -/
theorem dispose_frame (w : World) :
    (Engine.dispose w).transport.scheduled = w.transport.scheduled ∧
    (Engine.dispose w).parts = w.parts ∧
    (Engine.dispose w).engine.initialized = false ∧
    ((Engine.dispose w).engine.kick).all (fun n => n.disposed) = true ∧
    ((Engine.dispose w).engine.snare).all (fun n => n.disposed) = true ∧
    ((Engine.dispose w).engine.hat).all (fun n => n.disposed) = true ∧
    ((Engine.dispose w).engine.bass).all (fun n => n.disposed) = true ∧
    ((Engine.dispose w).engine.lead).all (fun n => n.disposed) = true ∧
    ((Engine.dispose w).engine.fx).all (fun n => n.disposed) = true ∧
    ((Engine.dispose w).engine.distortion).all (fun n => n.disposed) = true ∧
    ((Engine.dispose w).engine.limiter).all (fun n => n.disposed) = true ∧
    ((Engine.dispose w).engine.filter).all (fun n => n.disposed) = true ∧
    ((Engine.dispose w).engine.reverb).all (fun n => n.disposed) = true := by
  refine ⟨rfl, rfl, rfl, ?_, ?_, ?_, ?_, ?_, ?_, ?_, ?_, ?_, ?_⟩ <;>
    simp [Engine.dispose, disposeNode, disposeFilter, disposeReverb, Option.all] <;>
    first
      | (cases w.engine.kick <;> simp [disposeNode])
      | (cases w.engine.snare <;> simp [disposeNode])
      | (cases w.engine.hat <;> simp [disposeNode])
      | (cases w.engine.bass <;> simp [disposeNode])
      | (cases w.engine.lead <;> simp [disposeNode])
      | (cases w.engine.fx <;> simp [disposeNode])
      | (cases w.engine.distortion <;> simp [disposeNode])
      | (cases w.engine.limiter <;> simp [disposeNode])
      | (cases w.engine.filter <;> simp [disposeFilter])
      | (cases w.engine.reverb <;> simp [disposeReverb])

/-- C6: createClip builds exactly one scheduled firing per LoopEvent (the
scheduled pairs project back onto the event list itself, so nothing is
deduplicated and stacked identical events each keep a firing); and on the
demo pattern kick-0, snare-4, kick-8 at the default 104 bpm the created
part fires exactly three times per loop period, at measure fractions 0,
4/16 and 8/16 of the measure, looping over one measure. -/
theorem createClip_one_firing_per_event :
    (∀ (w : World) (clip : LoopClip), w.engine.initialized = true →
      ∃ part : PartState,
        (Engine.createClip clip w).2.parts = w.parts ++ [part] ∧
        part.events.map Prod.snd = clip.events ∧
        part.events.length = clip.events.length ∧
        part.loop = true) ∧
    (∃ part : PartState,
      (Engine.createClip demoClip (Engine.init world0)).2.parts = [part] ∧
      part.events.map Prod.fst =
        [0, 4 / 16 * measureSeconds 104, 8 / 16 * measureSeconds 104] ∧
      part.events.length = 3 ∧
      part.loop = true ∧
      part.loopEnd = measureSeconds 104) := by
  constructor
  · intro w clip h
    refine ⟨Engine.builtPart w.transport.bpm clip, ?_, ?_, ?_, rfl⟩
    · simp [Engine.createClip, h]
    · have hcomp : (Prod.snd ∘ fun evt : LoopEvent =>
          (Engine.clipOffset w.transport.bpm evt.tick, evt)) = id := rfl
      simp [Engine.builtPart, List.map_map, hcomp]
    · simp [Engine.builtPart]
  · refine ⟨Engine.builtPart (Engine.init world0).transport.bpm demoClip, ?_, ?_, ?_, rfl, ?_⟩
    · simp [Engine.createClip, Engine.init, world0]
    · simp [Engine.builtPart, Engine.init, world0, demoClip, Engine.clipOffset,
        jsRemInt, measureSeconds, GRID_RESOLUTION, DEFAULT_BPM]
    · simp [Engine.builtPart, demoClip]
    · simp [Engine.builtPart, Engine.init, world0, measureSeconds, DEFAULT_BPM]

/-- C6 witness: the per-event schedule shape instantiated on the demo
pattern against the freshly initialized engine. -/
theorem createClip_one_firing_per_event_witness :
    (Engine.init world0).engine.initialized = true ∧
    ∃ part : PartState,
      (Engine.createClip demoClip (Engine.init world0)).2.parts =
        (Engine.init world0).parts ++ [part] ∧
      part.events.map Prod.snd = demoClip.events ∧
      part.events.length = demoClip.events.length ∧
      part.loop = true :=
  ⟨rfl, createClip_one_firing_per_event.1 (Engine.init world0) demoClip rfl⟩

/-- A clip holding a single event with the out-of-range negative step -5,
used to exercise the defensive normalization of createClip. -/
def negClip : LoopClip :=
  { id := "neg"
    title := "Neg"
    author := "Spec"
    bpm := 104
    color := "#000000"
    createdAt := 0
    events := [{ tick := -5, padId := PadId.hat, velocity := 1 }]
    likes := 0
    remixes := 0 }

/-- C7 counterexample: the schedule offset is not always inside the
measure.  The JavaScript remainder keeps the sign of the dividend, so for
the out-of-range step -5 at 104 bpm the computed offset is -75/104 s,
which is negative; createClip schedules exactly that negative offset
rather than a value in [0, measureDuration). -/
theorem clipOffset_negative_step_counterexample :
    Engine.clipOffset 104 (-5) = -75 / 104 ∧
    ((-75 : ℚ) / 104 < 0) ∧
    (Engine.createClip negClip (Engine.init world0)).2.parts.map
      (fun p => p.events.map Prod.fst) = [[-75 / 104]] := by
  refine ⟨?_, by norm_num, ?_⟩
  · simp [Engine.clipOffset, jsRemInt, measureSeconds, GRID_RESOLUTION]
    norm_num
  · simp [Engine.createClip, Engine.init, world0, negClip, Engine.builtPart,
      Engine.clipOffset, jsRemInt, measureSeconds, GRID_RESOLUTION, DEFAULT_BPM]
    norm_num

/-- Bounds of the JavaScript integer remainder for a negative dividend and
positive divisor: the result lies in (-b, 0]. -/
theorem jsRemInt_neg_bounds {a b : ℤ} (ha : a < 0) (hb : 0 < b) :
    -b < jsRemInt a b ∧ jsRemInt a b ≤ 0 := by
  rw [jsRemInt, if_neg (by omega)]
  have h1 : 0 ≤ (-a) % b := Int.emod_nonneg (-a) (ne_of_gt hb)
  have h2 : (-a) % b < b := Int.emod_lt_of_pos (-a) hb
  omega

/-- C7 amended: createClip normalizes the step with the JavaScript
remainder, which keeps the sign of the step.  For every non-negative
integer step the scheduled offset lies in [0, measureDuration), but for a
negative step it lies in (-measureDuration, 0], not in [0,
measureDuration). -/
theorem clipOffset_eq_mul_div (bpm : ℚ) (tick : ℤ) :
    Engine.clipOffset bpm tick =
      (jsRemInt tick 16 : ℚ) * measureSeconds bpm / 16 := by
  rw [Engine.clipOffset, GRID_RESOLUTION]
  push_cast
  ring

theorem clipOffset_range (bpm : ℚ) (tick : ℤ) (hb : 0 < bpm) :
    (0 ≤ tick →
      0 ≤ Engine.clipOffset bpm tick ∧ Engine.clipOffset bpm tick < measureSeconds bpm) ∧
    (tick < 0 →
      -measureSeconds bpm < Engine.clipOffset bpm tick ∧ Engine.clipOffset bpm tick ≤ 0) := by
  have hm : 0 < measureSeconds bpm := by
    rw [measureSeconds]
    positivity
  rw [clipOffset_eq_mul_div]
  constructor
  · intro ht
    have h0 : (0 : ℚ) ≤ (jsRemInt tick 16 : ℚ) := by
      exact_mod_cast jsRemInt_nonneg ht (by norm_num)
    have h16 : (jsRemInt tick 16 : ℚ) < 16 := by
      exact_mod_cast jsRemInt_lt ht (by norm_num)
    constructor
    · exact div_nonneg (mul_nonneg h0 hm.le) (by norm_num)
    · rw [div_lt_iff₀ (by norm_num : (0 : ℚ) < 16)]
      nlinarith [mul_pos (by linarith : (0 : ℚ) < 16 - (jsRemInt tick 16 : ℚ)) hm]
  · intro ht
    obtain ⟨hlo, hhi⟩ := jsRemInt_neg_bounds ht (by norm_num : (0 : ℤ) < 16)
    have hloQ : (-16 : ℚ) < (jsRemInt tick 16 : ℚ) := by exact_mod_cast hlo
    have hhiQ : (jsRemInt tick 16 : ℚ) ≤ 0 := by exact_mod_cast hhi
    constructor
    · rw [lt_div_iff₀ (by norm_num : (0 : ℚ) < 16)]
      nlinarith [mul_pos (by linarith : (0 : ℚ) < (jsRemInt tick 16 : ℚ) + 16) hm]
    · apply div_nonpos_of_nonpos_of_nonneg _ (by norm_num)
      nlinarith [mul_nonneg (by linarith : (0 : ℚ) ≤ -(jsRemInt tick 16 : ℚ)) hm.le]

/-- C7 amended witness: the offset bounds instantiated at 104 bpm for the
in-range step 4 and the negative step -5. -/
theorem clipOffset_range_witness :
    (0 : ℚ) < 104 ∧ (0 : ℤ) ≤ 4 ∧ (-5 : ℤ) < 0 ∧
    (0 ≤ Engine.clipOffset 104 4 ∧ Engine.clipOffset 104 4 < measureSeconds 104) ∧
    (-measureSeconds 104 < Engine.clipOffset 104 (-5) ∧ Engine.clipOffset 104 (-5) ≤ 0) :=
  ⟨by norm_num, by norm_num, by norm_num,
    (clipOffset_range 104 4 (by norm_num)).1 (by norm_num),
    (clipOffset_range 104 (-5) (by norm_num)).2 (by norm_num)⟩

theorem stopRelease_idem (p : PartState) :
    partDispose (partStop (partDispose (partStop p))) = partDispose (partStop p) := rfl

theorem updateAt_idem (l : List PartState) (i : ℕ) (f : PartState → PartState)
    (hf : ∀ p, f (f p) = f p) : updateAt (updateAt l i f) i f = updateAt l i f := by
  induction l generalizing i with
  | nil => rfl
  | cons p ps ih =>
    cases i with
    | zero => simp [updateAt, hf]
    | succ n => simp [updateAt, ih]

theorem disposeNode_comp_idem : disposeNode ∘ disposeNode = disposeNode :=
  funext fun _ => rfl

theorem disposeFilter_comp_idem : disposeFilter ∘ disposeFilter = disposeFilter :=
  funext fun _ => rfl

theorem disposeReverb_comp_idem : disposeReverb ∘ disposeReverb = disposeReverb :=
  funext fun _ => rfl

/-- C8: stopClip and dispose are idempotent under repeated invocation, and
stopClip commutes with engine disposal.  Running stopClip twice on the
same handle changes nothing the second time, running dispose twice on the
same engine changes nothing the second time (no duplicate release of any
node), and stopClip applied after the engine was disposed behaves exactly
as it would have before disposal; none of these calls can fail, since the
embedded operations are total and perform no readiness check. -/
theorem stopClip_dispose_idempotent (w : World) (ac : ActiveClip) :
    Engine.stopClip ac (Engine.stopClip ac w) = Engine.stopClip ac w ∧
    Engine.dispose (Engine.dispose w) = Engine.dispose w ∧
    Engine.stopClip ac (Engine.dispose w) = Engine.dispose (Engine.stopClip ac w) := by
  refine ⟨?_, ?_, ?_⟩
  · cases hp : ac.part with
    | none => simp [Engine.stopClip, hp]
    | some pid =>
      simp only [Engine.stopClip, hp]
      rw [updateAt_idem]
      intro p
      exact stopRelease_idem p
  · simp [Engine.dispose, disposeNode_comp_idem, disposeFilter_comp_idem,
      disposeReverb_comp_idem]
  · cases hp : ac.part <;> simp [Engine.stopClip, Engine.dispose, hp]

/-- C9: the engine treats the stored LoopClip as opaque input.  The
ActiveClip returned by createClip agrees with the source clip on every
LoopClip field (it is a field-wise copy), and stopClip touches only the
created parts: the engine fields and the transport are left untouched, and
no LoopClip data is stored in the engine at all. -/
theorem engine_never_mutates_clip :
    (∀ (w : World) (clip : LoopClip), w.engine.initialized = true →
      (Engine.createClip clip w).1.map ActiveClip.toLoopClip = Except.ok clip) ∧
    (∀ (w : World) (ac : ActiveClip),
      (Engine.stopClip ac w).engine = w.engine ∧
      (Engine.stopClip ac w).transport = w.transport) := by
  constructor
  · intro w clip h
    simp [Engine.createClip, h, Except.map]
  · intro w ac
    cases hp : ac.part <;> simp [Engine.stopClip, hp]

/-- C9 witness: the ActiveClip built from the demo pattern projects back
onto the demo pattern itself. -/
theorem engine_never_mutates_clip_witness :
    (Engine.init world0).engine.initialized = true ∧
    (Engine.createClip demoClip (Engine.init world0)).1.map ActiveClip.toLoopClip =
      Except.ok demoClip :=
  ⟨rfl, engine_never_mutates_clip.1 (Engine.init world0) demoClip rfl⟩

end PulseCanvas
